import Mathlib

/-!
Shallow embedding of the permission-resolution engine and document
access-control subsystem of the department-portal backend.

Sources embedded (Python/Django):
  backend/departments/models.py   (Permission, PermissionTemplate, PermissionAuditLog)
  backend/documents/utils.py      (user_has_permission, get_user_permissions)
  backend/documents/permissions.py (HasDocumentPermission.has_object_permission)
  backend/documents/models.py     (DocumentShare.is_expired, DocumentShare.can_access)
  backend/departments/views.py    (grant_permission, revoke_permission, apply_template_to_users)
  backend/documents/views.py      (DocumentSharedAccessView.post)

Conventions of the embedding: ids are Nat, timestamps are Nat (a larger
value is a later instant; the current instant is passed explicitly as
`now` wherever the Python code reads the clock), Django QuerySets over a
table are lists of rows, and each view is a pure function from the store
state and request data to a response together with the new store state.
-/

namespace Portal

/-- A department assignment row (departments.models.EmployeeDepartment),
restricted to the fields the permission engine reads: the department and
the end date (`none` meaning the assignment is currently active). -/
structure DeptAssignment where
  department_id : Nat
  end_date : Option Nat
deriving Repr, DecidableEq

/-- An authenticated principal (accounts User), restricted to the fields
the permission engine reads. `is_authenticated` is Django's flag, true
for every real user and false for AnonymousUser. -/
structure User where
  id : Nat
  role : String
  is_authenticated : Bool
  department_assignments : List DeptAssignment
deriving Repr, DecidableEq

/-- A permission grant row (departments.models.Permission): an
entity-scoped grant of one permission key, with activity flag, optional
expiry and audit notes. The table has unique_together
(entity_type, entity_id, permission). -/
structure Permission where
  id : Nat
  entity_type : String
  entity_id : Nat
  permission : String
  permission_category : String
  granted_by : Nat
  is_active : Bool
  expires_at : Option Nat
  notes : String
deriving Repr, DecidableEq

/-- Permission.is_expired property: expired iff expires_at is set and
now is strictly past it. -/
def Permission.is_expired (p : Permission) (now : Nat) : Bool :=
  match p.expires_at with
  | some t => now > t
  | none => false

/-- Department ids of a user's currently active assignments:
department_assignments.filter(end_date__isnull=True). -/
def activeDeptIds (u : User) : List Nat :=
  (u.department_assignments.filter (fun a => a.end_date == none)).map
    (fun a => a.department_id)

/-- documents/utils.py user_has_permission: admin short-circuit, then an
active direct user grant, then an active grant to any currently active
department of the user. The store is the Permission table. -/
def user_has_permission (store : List Permission) (u : User)
    (permission_key : String) : Bool :=
  if !u.is_authenticated then false
  else if u.role == "admin" then true
  else
    let user_permission := store.any (fun p =>
      p.entity_type == "user" && p.entity_id == u.id &&
      p.permission == permission_key && p.is_active)
    if user_permission then true
    else
      let user_departments := activeDeptIds u
      store.any (fun p =>
        p.entity_type == "department" &&
        user_departments.contains p.entity_id &&
        p.permission == permission_key && p.is_active)

/-- The hard-coded full permission catalog returned for admins by
documents/utils.py get_user_permissions. -/
def adminCatalog : List String :=
  ["documents.view_all", "documents.create", "documents.edit_all",
   "documents.delete_all", "documents.approve", "documents.share",
   "categories.view_all", "categories.create", "categories.edit",
   "categories.delete", "categories.assign", "departments.view_all",
   "departments.manage", "departments.assign_users",
   "departments.view_employees", "users.view_all", "users.create",
   "users.edit", "users.deactivate", "users.assign_roles",
   "system.admin_settings", "system.view_analytics",
   "system.manage_settings", "system.backup"]

/-- documents/utils.py get_user_permissions: the full catalog for an
admin, otherwise the set union of active direct grants and active
grants to the user's currently active departments (the Python builds a
set; here the deduplicated list, membership being what matters). -/
def get_user_permissions (store : List Permission) (u : User) : List String :=
  if !u.is_authenticated then []
  else if u.role == "admin" then adminCatalog
  else
    let direct := (store.filter (fun p =>
      p.entity_type == "user" && p.entity_id == u.id && p.is_active)).map
      (fun p => p.permission)
    let user_departments := activeDeptIds u
    let viaDept := (store.filter (fun p =>
      p.entity_type == "department" &&
      user_departments.contains p.entity_id && p.is_active)).map
      (fun p => p.permission)
    (direct ++ viaDept).eraseDups

/-- A non-admin test principal, active in department 5. -/
def u1 : User :=
  { id := 1, role := "employee", is_authenticated := true,
    department_assignments := [{ department_id := 5, end_date := none }] }

/-- A direct user grant to u1, active but already expired at instant 10. -/
def expiredUserGrant : Permission :=
  { id := 10, entity_type := "user", entity_id := 1,
    permission := "documents.view_all", permission_category := "documents",
    granted_by := 99, is_active := true, expires_at := some 5, notes := "" }

/-- A department grant to department 5, active but already expired at
instant 10. -/
def expiredDeptGrant : Permission :=
  { id := 11, entity_type := "department", entity_id := 5,
    permission := "categories.view_all",
    permission_category := "categories", granted_by := 99,
    is_active := true, expires_at := some 5, notes := "" }

/-- An admin test principal with no department assignments. -/
def uAdmin : User :=
  { id := 2, role := "admin", is_authenticated := true,
    department_assignments := [] }

/-- An audit-log row (departments.models.PermissionAuditLog), restricted
to the fields the embedded views write. -/
structure AuditEntry where
  action : String
  permission : String
  entity_type : String
  entity_id : Option Nat
  performed_by : Nat
  notes : String
deriving Repr, DecidableEq

/-- The mutable state the grant views act on: the Permission table and
the append-only audit table. -/
structure GrantState where
  perms : List Permission
  audit : List AuditEntry
deriving Repr, DecidableEq

/-- Response of the grant_permission view, reduced to its outcome. -/
inductive GrantResp where
  | forbidden
  | missingFields
  | ok
deriving Repr, DecidableEq

/-- Category derivation in departments/views.py: the substring of the
key before the first dot when the key contains a dot, else the fallback
category system. Stated over the character list of the key: the Python
split on the dot keeps, as component zero, exactly the characters
before the first dot. -/
def deriveCategory (key : String) : String :=
  if key.data.contains '.' then
    String.mk (key.data.takeWhile (fun c => c != '.'))
  else "system"

/-- Does a Permission row match the unique (entity_type, entity_id,
permission) key used by get_or_create? -/
def grantKeyMatches (p : Permission) (et : String) (eid : Nat)
    (key : String) : Bool :=
  p.entity_type == et && p.entity_id == eid && p.permission == key

/-- The in-place reactivation applied by grant_permission to the row
found under the unique key: is_active becomes true and granted_by is
refreshed to the acting admin. -/
def reactivate (actorId : Nat) (p : Permission) : Permission :=
  { p with is_active := true, granted_by := actorId }

/-- Replace the first row satisfying f by g of it, leaving the rest
unchanged (the save() of the row found by get_or_create; the
unique_together constraint keeps at most one match in the table). -/
def updateFirst (f : Permission → Bool) (g : Permission → Permission) :
    List Permission → List Permission
  | [] => []
  | p :: rest =>
      if f p then g p :: rest else p :: updateFirst f g rest

/-- departments/views.py grant_permission: admin gate, presence check on
the request fields, then get_or_create keyed by (entity_type, entity_id,
permission) — an existing row is reactivated (is_active := true,
granted_by updated) in place, otherwise a fresh active row is created
with the derived category — and one audit entry with action grant is
appended. newId stands for the fresh UUID a creation would draw. -/
def grant_permission (st : GrantState) (actor : User) (et : String)
    (eid : Nat) (key notes : String) (newId : Nat) :
    GrantResp × GrantState :=
  if actor.role != "admin" then (.forbidden, st)
  else if et == "" || key == "" then (.missingFields, st)
  else
    let perms2 :=
      match st.perms.find? (fun p => grantKeyMatches p et eid key) with
      | some _ =>
          updateFirst (fun p => grantKeyMatches p et eid key)
            (reactivate actor.id) st.perms
      | none =>
          st.perms ++
            [{ id := newId, entity_type := et, entity_id := eid,
               permission := key,
               permission_category := deriveCategory key,
               granted_by := actor.id, is_active := true,
               expires_at := none, notes := notes }]
    let entry : AuditEntry :=
      { action := "grant", permission := key, entity_type := et,
        entity_id := some eid, performed_by := actor.id,
        notes := "Permission granted via admin interface" }
    (.ok, { perms := perms2, audit := st.audit ++ [entry] })

/-- Response of the revoke_permission view, reduced to its outcome. -/
inductive RevokeResp where
  | forbidden
  | notFound
  | ok
deriving Repr, DecidableEq

/-- The audit entry revoke_permission writes for a revoked grant,
capturing its prior state. -/
def revokeAuditEntry (g : Permission) (actorId : Nat) : AuditEntry :=
  { action := "revoke", permission := g.permission,
    entity_type := g.entity_type, entity_id := some g.entity_id,
    performed_by := actorId,
    notes := "Permission revoked via admin interface" }

/-- departments/views.py revoke_permission: admin gate, lookup by
primary key, one audit entry with action revoke capturing the prior
state, then hard delete of the row. -/
def revoke_permission (st : GrantState) (actor : User) (pid : Nat) :
    RevokeResp × GrantState :=
  if actor.role != "admin" then (.forbidden, st)
  else
    match st.perms.find? (fun p => p.id == pid) with
    | none => (.notFound, st)
    | some p =>
        (.ok, { perms := st.perms.filter (fun q => !(q.id == pid)),
                audit := st.audit ++ [revokeAuditEntry p actor.id] })

/-- Number of rows in the table matching one (entity_type, entity_id,
permission) key. -/
def countKey (perms : List Permission) (et : String) (eid : Nat)
    (key : String) : Nat :=
  perms.countP (fun p => grantKeyMatches p et eid key)

/-- Does a single grant row supply the key to the user, on either path
user_has_permission tests: as a direct active user grant, or as an
active grant to one of the user's currently active departments? -/
def grantsKeyTo (p : Permission) (u : User) (key : String) : Bool :=
  (p.entity_type == "user" && p.entity_id == u.id &&
   p.permission == key && p.is_active) ||
  (p.entity_type == "department" &&
   (activeDeptIds u).contains p.entity_id &&
   p.permission == key && p.is_active)

/-- A document (documents.models.Document), restricted to the fields
the object-level permission check reads. -/
structure Document where
  id : Nat
  owned_by : Nat
deriving Repr, DecidableEq

/-- The PERMISSION_MAP of documents/permissions.py as a lookup with the
default documents.view_all for unknown actions. -/
def permissionMap (action : String) : String :=
  if action == "list" then "documents.view_all"
  else if action == "retrieve" then "documents.view_all"
  else if action == "create" then "documents.create"
  else if action == "update" then "documents.edit_all"
  else if action == "partial_update" then "documents.edit_all"
  else if action == "destroy" then "documents.delete_all"
  else if action == "download" then "documents.view_all"
  else if action == "share" then "documents.share"
  else if action == "approve" then "documents.approve"
  else "documents.view_all"

/-- documents/permissions.py HasDocumentPermission.has_object_permission
with the view action given explicitly: authentication gate, admin
bypass, owner bypass, then the coarse permission key mapped from the
action. -/
def has_object_permission (store : List Permission) (u : User)
    (doc : Document) (action : String) : Bool :=
  if !u.is_authenticated then false
  else if u.role == "admin" then true
  else if doc.owned_by == u.id then true
  else user_has_permission store u (permissionMap action)

/-- A document share row (documents.models.DocumentShare), restricted
to the fields the embedded checks and the public-link endpoint read. -/
structure DocumentShare where
  id : Nat
  document : Nat
  share_type : String
  access_level : String
  shared_with_user : Option Nat
  shared_with_department : Option Nat
  public_link_token : Option String
  link_password : Option String
  expires_at : Option Nat
  is_active : Bool
  access_count : Nat
  last_accessed_at : Option Nat
  last_accessed_by : Option Nat
  allow_download : Bool
deriving Repr, DecidableEq

/-- DocumentShare.is_expired: expired iff expires_at is set and now is
strictly past it. -/
def DocumentShare.is_expired (s : DocumentShare) (now : Nat) : Bool :=
  match s.expires_at with
  | some t => now > t
  | none => false

/-- DocumentShare.can_access: inactive or expired shares deny; a user
share matches the exact target user; a department share matches any
currently active assignment of the user to the target department; a
public-link share allows anyone. -/
def DocumentShare.can_access (s : DocumentShare) (u : User) (now : Nat) :
    Bool :=
  if !s.is_active || s.is_expired now then false
  else if s.share_type == "user" then s.shared_with_user == some u.id
  else if s.share_type == "department" then
    u.department_assignments.any (fun a =>
      some a.department_id == s.shared_with_department &&
      a.end_date == none)
  else if s.share_type == "public_link" then true
  else false

/-- Outcome of the public-link access endpoint
(documents/views.py DocumentSharedAccessView.post), reduced to its
status: 404 when no active public-link share carries the token, 410
when the share is expired, 401 when a required password does not match,
200 on success. -/
inductive SharedResp where
  | notFound
  | gone
  | unauthorized
  | ok
deriving Repr, DecidableEq

/-- The share lookup of DocumentSharedAccessView: an active public_link
share carrying the token. -/
def findShare (shares : List DocumentShare) (token : String) :
    Option DocumentShare :=
  shares.find? (fun s =>
    s.public_link_token == some token &&
    s.share_type == "public_link" && s.is_active)

/-- The access-tracking update the endpoint performs on success:
access_count is incremented and last_accessed_at is set to the current
instant (no other field of the share is written). -/
def record_access (s : DocumentShare) (now : Nat) : DocumentShare :=
  { s with access_count := s.access_count + 1,
           last_accessed_at := some now }

/-- Saving one updated share row back into the table by primary key. -/
def replaceShare (shares : List DocumentShare) (sid : Nat)
    (s2 : DocumentShare) : List DocumentShare :=
  shares.map (fun q => if q.id == sid then s2 else q)

/-- Is the share password-gated? Python truthiness of link_password:
None and the empty string both skip the check. -/
def hasLinkPassword (s : DocumentShare) : Bool :=
  match s.link_password with
  | some lp => lp != ""
  | none => false

/-- documents/views.py DocumentSharedAccessView.post: look up an
active public_link share by token (404 when absent), reject expired
shares (410), then — only when link_password is set — compare the
provided password (the serializer defaults a missing one to the empty
string) and reject mismatches (401); on success record the access and
return the share payload. -/
def sharedAccessPost (shares : List DocumentShare) (token : String)
    (password : String) (now : Nat) : SharedResp × List DocumentShare :=
  match findShare shares token with
  | none => (.notFound, shares)
  | some s =>
      if s.is_expired now then (.gone, shares)
      else if hasLinkPassword s &&
          !(some password == s.link_password) then
        (.unauthorized, shares)
      else
        (.ok, replaceShare shares s.id (record_access s now))

/-- A document owned by user 9 (not by the test principal u1). -/
def doc1 : Document := { id := 50, owned_by := 9 }

/-- An active, unexpired direct grant of documents.edit_all to user 1,
with no matching documents.view_all grant anywhere. -/
def gEditAll : Permission :=
  { id := 20, entity_type := "user", entity_id := 1,
    permission := "documents.edit_all",
    permission_category := "documents", granted_by := 99,
    is_active := true, expires_at := none, notes := "" }

/-- An active public-link share with password pw, never expiring. -/
def pubShare : DocumentShare :=
  { id := 70, document := 50, share_type := "public_link",
    access_level := "view", shared_with_user := none,
    shared_with_department := none,
    public_link_token := some "tok123", link_password := some "pw",
    expires_at := none, is_active := true, access_count := 3,
    last_accessed_at := none, last_accessed_by := none,
    allow_download := true }

/-- An active public-link share that expired at instant 5. -/
def pubShareExpired : DocumentShare :=
  { pubShare with
    id := 71, public_link_token := some "tokOld", expires_at := some 5 }

/-- A permission template row (departments.models.PermissionTemplate),
restricted to the fields apply_template_to_users reads and writes. -/
structure PermissionTemplate where
  id : Nat
  name : String
  permissions : List String
  usage_count : Nat
  is_active : Bool
deriving Repr, DecidableEq

/-- Character-list prefix test used to embed the Python substring
operator on notes. -/
def charsBeginWith : List Char → List Char → Bool
  | _, [] => true
  | [], _ :: _ => false
  | a :: as, b :: bs => a == b && charsBeginWith as bs

/-- Character-list substring test: does the needle occur somewhere in
the haystack? -/
def charsContain : List Char → List Char → Bool
  | [], needle => needle.isEmpty
  | a :: t, needle => charsBeginWith (a :: t) needle || charsContain t needle

/-- Lower-casing of a character list (the icontains normalisation). -/
def lowerChars (cs : List Char) : List Char := cs.map Char.toLower

/-- The notes__icontains filter of the usage_count recomputation: does
the row's notes field contain, case-insensitively, the text template:
followed by the template name? -/
def notesMatchTemplate (notes tname : String) : Bool :=
  charsContain (lowerChars notes.data)
    (lowerChars ("template: " ++ tname).data)

/-- The usage_count recomputation of apply_template_to_users: the
number of distinct entity ids currently holding a grant whose notes
reference the template. -/
def usageCount (perms : List Permission) (tname : String) : Nat :=
  (((perms.filter (fun p => notesMatchTemplate p.notes tname)).map
    (fun p => p.entity_id)).eraseDups).length

/-- Accumulator for the inner loop of apply_template_to_users over one
user's template keys: the evolving table, the running skipped counter,
the per-user permissions_created counter and the next fresh row id. -/
structure ApplyAcc where
  perms : List Permission
  skipped : Nat
  created : Nat
  nextId : Nat
deriving Repr, DecidableEq

/-- One iteration of the inner loop: look for an active grant of the
key directly targeting the user; skip it under overwrite=false, update
granter and notes in place under overwrite=true, and otherwise create a
fresh active row annotated with the template's provenance. -/
def applyKey (actor : User) (tname : String) (overwrite : Bool)
    (uid : Nat) (acc : ApplyAcc) (key : String) : ApplyAcc :=
  match acc.perms.find? (fun p =>
      p.entity_type == "user" && p.entity_id == uid &&
      p.permission == key && p.is_active) with
  | some ep =>
      if !overwrite then { acc with skipped := acc.skipped + 1 }
      else
        { acc with
          perms := updateFirst (fun p => p.id == ep.id)
            (fun p => { p with granted_by := actor.id,
                               notes := "Updated by template: " ++ tname })
            acc.perms,
          created := acc.created + 1 }
  | none =>
      { acc with
        perms := acc.perms ++
          [{ id := acc.nextId, entity_type := "user", entity_id := uid,
             permission := key,
             permission_category := deriveCategory key,
             granted_by := actor.id, is_active := true,
             expires_at := none,
             notes := "Applied from template: " ++ tname }],
        created := acc.created + 1,
        nextId := acc.nextId + 1 }

/-- Accumulator for the outer loop over the target users. -/
structure ApplyUsersAcc where
  perms : List Permission
  audit : List AuditEntry
  applied : Nat
  skipped : Nat
  nextId : Nat
deriving Repr, DecidableEq

/-- One iteration of the outer loop: run the inner loop over the
template's keys with the per-user created counter reset, then — only
when at least one permission was created or refreshed for this user —
count the user as applied and append one template_apply audit entry. -/
def applyUser (actor : User) (tname : String) (tperms : List String)
    (overwrite : Bool) (acc : ApplyUsersAcc) (uid : Nat) :
    ApplyUsersAcc :=
  let r := tperms.foldl (applyKey actor tname overwrite uid)
    { perms := acc.perms, skipped := acc.skipped, created := 0,
      nextId := acc.nextId }
  if r.created > 0 then
    { perms := r.perms,
      audit := acc.audit ++
        [{ action := "template_apply",
           permission := "template:" ++ tname, entity_type := "user",
           entity_id := some uid, performed_by := actor.id,
           notes := "" }],
      applied := acc.applied + 1, skipped := r.skipped,
      nextId := r.nextId }
  else
    { perms := r.perms, audit := acc.audit, applied := acc.applied,
      skipped := r.skipped, nextId := r.nextId }

/-- Response of apply_template_to_users, reduced to its outcome with
the reported applied_count and skipped_count. -/
inductive ApplyResp where
  | forbidden
  | noUsers
  | ok (applied_count skipped_count : Nat)
deriving Repr, DecidableEq

/-- departments/views.py apply_template_to_users: admin gate, nonempty
user list, the two nested loops over users and template keys, then the
usage_count recomputation over the resulting table as the distinct
count of entities holding a grant whose notes reference the template. -/
def apply_template_to_users (st : GrantState) (actor : User)
    (template : PermissionTemplate) (user_ids : List Nat)
    (overwrite : Bool) (nextId : Nat) :
    ApplyResp × GrantState × PermissionTemplate :=
  if actor.role != "admin" then (.forbidden, st, template)
  else if user_ids.isEmpty then (.noUsers, st, template)
  else
    let r := user_ids.foldl
      (applyUser actor template.name template.permissions overwrite)
      { perms := st.perms, audit := st.audit, applied := 0,
        skipped := 0, nextId := nextId }
    (.ok r.applied r.skipped, { perms := r.perms, audit := r.audit },
     { template with usage_count := usageCount r.perms template.name })

/-- The Viewer template of the spec scenario: two view permissions, not
yet applied to anyone. -/
def viewerTemplate : PermissionTemplate :=
  { id := 1, name := "Viewer",
    permissions := ["documents.view_all", "categories.view_all"],
    usage_count := 0, is_active := true }

/-!  Theorems  -/

/-- C1: the spec says a grant whose expires_at lies in the past is inert
even when is_active is true, but user_has_permission and
get_user_permissions in documents/utils.py filter only on is_active and
never on expires_at: an active, expired grant (user-targeted or
department-targeted) still makes has_permission true and still appears
in the resolved set. This theorem evaluates the embedded code at the
failing input (grant expired at instant 5, current instant 10). -/
theorem expired_grant_still_resolves :
    Permission.is_expired expiredUserGrant 10 = true ∧
    Permission.is_expired expiredDeptGrant 10 = true ∧
    user_has_permission [expiredUserGrant] u1 "documents.view_all" = true ∧
    user_has_permission [expiredDeptGrant] u1 "categories.view_all" = true ∧
    "documents.view_all" ∈ get_user_permissions [expiredUserGrant] u1 ∧
    "categories.view_all" ∈ get_user_permissions [expiredDeptGrant] u1 := by
  decide

/-- C3: for an authenticated principal with role admin, resolve returns
the fixed full permission catalog whatever the grant store holds (any
two stores give the same result), and has_permission short-circuits to
true for every key. -/
theorem admin_resolve_full_catalog (store store2 : List Permission)
    (u : User) (k : String) (hauth : u.is_authenticated = true)
    (hrole : u.role = "admin") :
    get_user_permissions store u = adminCatalog ∧
    get_user_permissions store u = get_user_permissions store2 u ∧
    user_has_permission store u k = true := by
  simp [get_user_permissions, user_has_permission, hauth, hrole]

/-- Witness for C3 at a concrete admin, two different stores and one key. -/
theorem admin_resolve_full_catalog_witness :
    get_user_permissions [] uAdmin = adminCatalog ∧
    get_user_permissions [] uAdmin =
      get_user_permissions [expiredUserGrant] uAdmin ∧
    user_has_permission [] uAdmin "documents.delete_all" = true :=
  admin_resolve_full_catalog [] [expiredUserGrant] uAdmin
    "documents.delete_all" rfl rfl

/-- Updating the first match in place does not change how many rows
match, provided the update preserves matching. -/
lemma updateFirst_countP (f : Permission → Bool) (g : Permission → Permission)
    (hfg : ∀ p, f (g p) = f p) :
    ∀ l : List Permission, (updateFirst f g l).countP f = l.countP f := by
  intro l
  induction l with
  | nil => rfl
  | cons p rest ih =>
      cases hb : f p with
      | true => simp [updateFirst, hb, List.countP_cons, hfg]
      | false => simp [updateFirst, hb, List.countP_cons, ih]

/-- If at most one row matches, then after updating the first match with
an updater that sets is_active, every matching row is active. -/
lemma updateFirst_all_active (f : Permission → Bool)
    (g : Permission → Permission) (hg : ∀ p, (g p).is_active = true) :
    ∀ l : List Permission, l.countP f ≤ 1 →
      ∀ q ∈ updateFirst f g l, f q = true → q.is_active = true := by
  intro l
  induction l with
  | nil => intro _ q hq; simp [updateFirst] at hq
  | cons p rest ih =>
      intro hc q hq hfq
      cases hb : f p with
      | true =>
          rw [updateFirst, if_pos hb] at hq
          rcases List.mem_cons.mp hq with rfl | hmem
          · exact hg p
          · exfalso
            rw [List.countP_cons, if_pos hb] at hc
            have hz : rest.countP f = 0 := by omega
            exact (List.countP_eq_zero.mp hz q hmem) hfq
      | false =>
          rw [updateFirst, if_neg (by simp [hb])] at hq
          rcases List.mem_cons.mp hq with rfl | hmem
          · rw [hb] at hfq; exact absurd hfq Bool.false_ne_true
          · rw [List.countP_cons, if_neg (by simp [hb])] at hc
            exact ih (by omega) q hmem hfq

/-- A successful grant leaves exactly one row under its key, and every
row under the key active, whenever the table held at most one such row
before (the uniqueness constraint). -/
lemma grant_once (st : GrantState) (actor : User) (et : String)
    (eid : Nat) (key notes : String) (newId : Nat)
    (hadmin : actor.role = "admin") (het : et ≠ "") (hkey : key ≠ "")
    (hcount : countKey st.perms et eid key ≤ 1) :
    (grant_permission st actor et eid key notes newId).1 = .ok ∧
    countKey (grant_permission st actor et eid key notes newId).2.perms
      et eid key = 1 ∧
    ((grant_permission st actor et eid key notes newId).2.perms.all
      (fun q => !grantKeyMatches q et eid key || q.is_active)) = true := by
  have hadm : (actor.role != "admin") = false := by simp [hadmin]
  have het2 : (et == "") = false := beq_eq_false_iff_ne.mpr het
  have hkey2 : (key == "") = false := beq_eq_false_iff_ne.mpr hkey
  have hfg : ∀ p : Permission,
      grantKeyMatches (reactivate actor.id p) et eid key =
        grantKeyMatches p et eid key := by
    intro p; simp [grantKeyMatches, reactivate]
  rcases hfind : st.perms.find? (fun p => grantKeyMatches p et eid key)
      with _ | p
  · have hnone : ∀ x ∈ st.perms, ¬ grantKeyMatches x et eid key = true :=
      List.find?_eq_none.mp hfind
    refine ⟨?_, ?_, ?_⟩
    · simp [grant_permission, hadm, het2, hkey2, hfind]
    · simp only [grant_permission, hadm, het2, hkey2, hfind,
        Bool.false_eq_true, if_false, Bool.or_self]
      unfold countKey at hcount ⊢
      rw [List.countP_append]
      have hz : st.perms.countP (fun p => grantKeyMatches p et eid key) = 0 :=
        List.countP_eq_zero.mpr hnone
      rw [hz]
      simp [List.countP_cons, grantKeyMatches]
    · simp only [grant_permission, hadm, het2, hkey2, hfind,
        Bool.false_eq_true, if_false, Bool.or_self]
      rw [List.all_eq_true]
      intro q hq
      rcases List.mem_append.mp hq with hmem | hnew
      · have := hnone q hmem
        simp [Bool.eq_false_iff.mpr this]
      · rcases List.mem_singleton.mp hnew with rfl
        simp
  · have hp := List.find?_some hfind
    have hmem : p ∈ st.perms := List.mem_of_find?_eq_some hfind
    have hpos : 0 < st.perms.countP (fun q => grantKeyMatches q et eid key) :=
      List.countP_pos_iff.mpr ⟨p, hmem, hp⟩
    refine ⟨?_, ?_, ?_⟩
    · simp [grant_permission, hadm, het2, hkey2, hfind]
    · simp only [grant_permission, hadm, het2, hkey2, hfind,
        Bool.false_eq_true, if_false, Bool.or_self]
      unfold countKey at hcount ⊢
      rw [updateFirst_countP _ _ hfg]
      omega
    · simp only [grant_permission, hadm, het2, hkey2, hfind,
        Bool.false_eq_true, if_false, Bool.or_self]
      rw [List.all_eq_true]
      intro q hq
      cases hm : grantKeyMatches q et eid key with
      | false => simp [hm]
      | true =>
          have := updateFirst_all_active
            (fun r => grantKeyMatches r et eid key)
            (reactivate actor.id) (fun _ => rfl) st.perms hcount q hq hm
          simp [this]

/-- C5: granting the same (entity_type, entity_id, permission) twice on
a table respecting the uniqueness constraint leaves exactly one row for
the triple, and that row is active — the second call reactivates the
existing row instead of duplicating it. -/
theorem grant_idempotent_single_active_row (st : GrantState)
    (actor : User) (et : String) (eid : Nat) (key notes notes2 : String)
    (n1 n2 : Nat) (hadmin : actor.role = "admin") (het : et ≠ "")
    (hkey : key ≠ "") (hcount : countKey st.perms et eid key ≤ 1) :
    countKey (grant_permission
        (grant_permission st actor et eid key notes n1).2
        actor et eid key notes2 n2).2.perms et eid key = 1 ∧
    ((grant_permission (grant_permission st actor et eid key notes n1).2
        actor et eid key notes2 n2).2.perms.all
      (fun q => !grantKeyMatches q et eid key || q.is_active)) = true := by
  have h1 := grant_once st actor et eid key notes n1 hadmin het hkey hcount
  have h2 := grant_once (grant_permission st actor et eid key notes n1).2
    actor et eid key notes2 n2 hadmin het hkey (le_of_eq h1.2.1)
  exact ⟨h2.2.1, h2.2.2⟩

/-- Witness for C5: two grants of the same key to user 1 on the empty
store leave exactly one active row. -/
theorem grant_idempotent_single_active_row_witness :
    countKey (grant_permission
        (grant_permission ⟨[], []⟩ uAdmin "user" 1 "documents.view_all"
          "first" 100).2
        uAdmin "user" 1 "documents.view_all" "second" 101).2.perms
      "user" 1 "documents.view_all" = 1 ∧
    ((grant_permission (grant_permission ⟨[], []⟩ uAdmin "user" 1
        "documents.view_all" "first" 100).2
        uAdmin "user" 1 "documents.view_all" "second" 101).2.perms.all
      (fun q => !grantKeyMatches q "user" 1 "documents.view_all" ||
        q.is_active)) = true :=
  grant_idempotent_single_active_row ⟨[], []⟩ uAdmin "user" 1
    "documents.view_all" "first" "second" 100 101 rfl
    (by decide) (by decide) (by decide)

/-- C6 counterexample: a permission key with no dot is not rejected by
grant_permission — at the concrete input the request succeeds and a
grant row is created, with the key coerced into the fallback category
system. -/
theorem no_dot_key_not_rejected :
    (grant_permission ⟨[], []⟩ uAdmin "user" 1 "viewstuff" "" 100).1 =
      .ok ∧
    (grant_permission ⟨[], []⟩ uAdmin "user" 1 "viewstuff" ""
        100).2.perms =
      [{ id := 100, entity_type := "user", entity_id := 1,
         permission := "viewstuff", permission_category := "system",
         granted_by := 2, is_active := true, expires_at := none,
         notes := "" }] := by
  decide

/-- C6 amended: for every admin-issued grant request whose key is
nonempty and contains no dot, the request is accepted (not rejected with
a validation error) and the derived permission_category is the fallback
category system. -/
theorem no_dot_key_coerced_to_system (st : GrantState) (actor : User)
    (et : String) (eid : Nat) (key notes : String) (newId : Nat)
    (hadmin : actor.role = "admin") (het : et ≠ "") (hkey : key ≠ "")
    (hnodot : key.data.contains '.' = false) :
    (grant_permission st actor et eid key notes newId).1 = .ok ∧
    deriveCategory key = "system" := by
  have hadm : (actor.role != "admin") = false := by simp [hadmin]
  have het2 : (et == "") = false := beq_eq_false_iff_ne.mpr het
  have hkey2 : (key == "") = false := beq_eq_false_iff_ne.mpr hkey
  constructor
  · rcases hfind : st.perms.find? (fun p => grantKeyMatches p et eid key)
        with _ | p <;>
      simp [grant_permission, hadm, het2, hkey2, hfind]
  · unfold deriveCategory
    rw [hnodot]
    simp

/-- Witness for C6 amended at the concrete dotless key. -/
theorem no_dot_key_coerced_to_system_witness :
    (grant_permission ⟨[], []⟩ uAdmin "user" 1 "viewstuff" "x" 100).1 =
      .ok ∧
    deriveCategory "viewstuff" = "system" :=
  no_dot_key_coerced_to_system ⟨[], []⟩ uAdmin "user" 1 "viewstuff" "x"
    100 rfl (by decide) (by decide) (by decide)

/-- C7: revoking an existing grant hard-deletes exactly the rows with
that primary key from the table, appends exactly one audit entry with
action revoke capturing the prior state, and — when the revoked grant
was the only row supplying the key to the affected principal — the next
resolution of that principal no longer includes the permission. -/
theorem revoke_removes_grant_and_audits (st : GrantState) (actor : User)
    (pid : Nat) (g : Permission) (u : User) (key : String)
    (hadmin : actor.role = "admin")
    (hfind : st.perms.find? (fun p => p.id == pid) = some g)
    (hu : u.is_authenticated = true) (hr : u.role ≠ "admin")
    (honly : ∀ q ∈ st.perms, q.id ≠ pid → grantsKeyTo q u key = false) :
    (revoke_permission st actor pid).1 = .ok ∧
    (revoke_permission st actor pid).2.perms =
      st.perms.filter (fun q => !(q.id == pid)) ∧
    (revoke_permission st actor pid).2.audit =
      st.audit ++ [revokeAuditEntry g actor.id] ∧
    user_has_permission (revoke_permission st actor pid).2.perms u
      key = false := by
  have hadm : (actor.role != "admin") = false := by simp [hadmin]
  have hrb : (u.role == "admin") = false := beq_eq_false_iff_ne.mpr hr
  have hkeep : ∀ q ∈ st.perms.filter (fun q => !(q.id == pid)),
      grantsKeyTo q u key = false := by
    intro q hq
    rcases List.mem_filter.mp hq with ⟨hmem, hne⟩
    refine honly q hmem ?_
    intro hcontra
    rw [hcontra] at hne
    simp at hne
  refine ⟨?_, ?_, ?_, ?_⟩
  · simp [revoke_permission, hadm, hfind]
  · simp [revoke_permission, hadm, hfind]
  · simp [revoke_permission, hadm, hfind]
  · have hperm : (revoke_permission st actor pid).2.perms =
        st.perms.filter (fun q => !(q.id == pid)) := by
      simp [revoke_permission, hadm, hfind]
    rw [hperm]
    unfold user_has_permission
    rw [hu]
    simp only [Bool.not_true, Bool.false_eq_true, if_false, hrb]
    have hA : (st.perms.filter (fun q => !(q.id == pid))).any (fun p =>
        p.entity_type == "user" && p.entity_id == u.id &&
        p.permission == key && p.is_active) = false := by
      rw [List.any_eq_false]
      intro q hq hcontra
      have := hkeep q hq
      unfold grantsKeyTo at this
      rw [hcontra] at this
      simp at this
    have hB : (st.perms.filter (fun q => !(q.id == pid))).any (fun p =>
        p.entity_type == "department" &&
        (activeDeptIds u).contains p.entity_id &&
        p.permission == key && p.is_active) = false := by
      rw [List.any_eq_false]
      intro q hq hcontra
      have := hkeep q hq
      unfold grantsKeyTo at this
      rw [hcontra] at this
      simp at this
    simp only [hA, Bool.false_eq_true, if_false]
    exact hB

/-- Witness for C7: u1's only grant of documents.view_all is revoked,
the store keeps no row with the revoked id, exactly one revoke audit
entry is appended, and u1 no longer resolves the key. -/
theorem revoke_removes_grant_and_audits_witness :
    (revoke_permission ⟨[expiredUserGrant], []⟩ uAdmin 10).1 = .ok ∧
    (revoke_permission ⟨[expiredUserGrant], []⟩ uAdmin 10).2.perms =
      [expiredUserGrant].filter (fun q => !(q.id == 10)) ∧
    (revoke_permission ⟨[expiredUserGrant], []⟩ uAdmin 10).2.audit =
      [] ++ [revokeAuditEntry expiredUserGrant uAdmin.id] ∧
    user_has_permission
      (revoke_permission ⟨[expiredUserGrant], []⟩ uAdmin 10).2.perms u1
      "documents.view_all" = false :=
  revoke_removes_grant_and_audits ⟨[expiredUserGrant], []⟩ uAdmin 10
    expiredUserGrant u1 "documents.view_all" rfl (by decide) rfl
    (by decide) (by decide)

/-- C2 counterexample: capability monotonicity fails on the code — a
non-admin, non-owner principal holding only documents.edit_all is
denied at the view level (action retrieve) yet allowed at the edit
level (action update), because the two levels test independent
permission keys. -/
theorem view_false_but_edit_true :
    has_object_permission [gEditAll] u1 doc1 "retrieve" = false ∧
    has_object_permission [gEditAll] u1 doc1 "update" = true := by
  decide

/-- C2 amended: monotonicity holds exactly when the higher key is also
absent — for every principal and document, if the view-level decision
(action retrieve) is false and the principal does not resolve
documents.edit_all, then the edit-level decision (action update) is
false as well. -/
theorem view_false_edit_false_without_edit_key (store : List Permission)
    (u : User) (doc : Document)
    (hview : has_object_permission store u doc "retrieve" = false)
    (hnoedit : user_has_permission store u "documents.edit_all" = false) :
    has_object_permission store u doc "update" = false := by
  have hmapU : permissionMap "update" = "documents.edit_all" := by decide
  unfold has_object_permission at hview ⊢
  cases hauth : u.is_authenticated with
  | false => simp
  | true =>
      simp only [Bool.not_true, Bool.false_eq_true, if_false] at hview ⊢
      cases hadm : (u.role == "admin") with
      | true => simp [hauth, hadm] at hview
      | false =>
          simp only [hadm, Bool.false_eq_true, if_false] at hview ⊢
          cases hown : (doc.owned_by == u.id) with
          | true => simp [hauth, hadm, hown] at hview
          | false =>
              simp only [hown, Bool.false_eq_true, if_false] at hview ⊢
              rw [hmapU]
              exact hnoedit

/-- Witness for C2 amended: u1 with no grants at all is denied at both
levels for doc1. -/
theorem view_false_edit_false_without_edit_key_witness :
    has_object_permission [] u1 doc1 "update" = false :=
  view_false_edit_false_without_edit_key [] u1 doc1 (by decide) (by decide)

/-- C8: a public-link token that matches no active stored share, or
matches one whose expires_at is past, is denied (404 or 410), the store
is untouched, and the outcome is the same whatever password is
supplied. -/
theorem public_link_absent_or_expired_denies
    (shares : List DocumentShare) (token password password2 : String)
    (now : Nat)
    (h : findShare shares token = none ∨
      ∃ s, findShare shares token = some s ∧ s.is_expired now = true) :
    ((sharedAccessPost shares token password now).1 = .notFound ∨
     (sharedAccessPost shares token password now).1 = .gone) ∧
    (sharedAccessPost shares token password now).1 =
      (sharedAccessPost shares token password2 now).1 ∧
    (sharedAccessPost shares token password now).2 = shares := by
  rcases h with hnone | ⟨s, hfind, hexp⟩
  · simp [sharedAccessPost, hnone]
  · simp [sharedAccessPost, hfind, hexp]

/-- Witness for C8: the expired share denies with 410 both for the
correct password and for a wrong one, leaving the store unchanged. -/
theorem public_link_absent_or_expired_denies_witness :
    ((sharedAccessPost [pubShareExpired] "tokOld" "pw" 10).1 =
        .notFound ∨
     (sharedAccessPost [pubShareExpired] "tokOld" "pw" 10).1 = .gone) ∧
    (sharedAccessPost [pubShareExpired] "tokOld" "pw" 10).1 =
      (sharedAccessPost [pubShareExpired] "tokOld" "wrong" 10).1 ∧
    (sharedAccessPost [pubShareExpired] "tokOld" "pw" 10).2 =
      [pubShareExpired] :=
  public_link_absent_or_expired_denies [pubShareExpired] "tokOld" "pw"
    "wrong" 10 (Or.inr ⟨pubShareExpired, by decide, by decide⟩)

/-- C9 counterexample: a successful password-gated public-link access
increments access_count and sets last_accessed_at, but last_accessed_by
is NOT updated — the resulting row keeps its previous value (none),
contradicting the claim that both fields are updated. -/
theorem success_does_not_update_last_accessed_by :
    (sharedAccessPost [pubShare] "tok123" "pw" 10).1 = .ok ∧
    (sharedAccessPost [pubShare] "tok123" "pw" 10).2 =
      [{ pubShare with access_count := 4,
                       last_accessed_at := some 10 }] := by
  decide

/-- C9 amended: on a non-successful outcome of the public-link access
endpoint no share field changes; on success exactly the matched share
is rewritten, its access_count incremented by one and last_accessed_at
set to now, while last_accessed_by keeps its previous value; and when
the share is password-gated, success implies the supplied password
equals the stored one. -/
theorem shared_access_frame_effects (shares : List DocumentShare)
    (token password : String) (now : Nat) :
    ((sharedAccessPost shares token password now).1 ≠ .ok →
      (sharedAccessPost shares token password now).2 = shares) ∧
    (∀ s, findShare shares token = some s →
      (sharedAccessPost shares token password now).1 = .ok →
      (sharedAccessPost shares token password now).2 =
        replaceShare shares s.id (record_access s now) ∧
      (record_access s now).access_count = s.access_count + 1 ∧
      (record_access s now).last_accessed_at = some now ∧
      (record_access s now).last_accessed_by = s.last_accessed_by ∧
      (hasLinkPassword s = true → (some password == s.link_password) = true)) := by
  constructor
  · intro hne
    rcases hfind : findShare shares token with _ | s
    · simp [sharedAccessPost, hfind]
    · simp only [sharedAccessPost, hfind] at hne ⊢
      cases hexp : s.is_expired now with
      | true => simp [hexp]
      | false =>
          simp only [hexp, Bool.false_eq_true, if_false] at hne ⊢
          cases hgate : (hasLinkPassword s &&
              !(some password == s.link_password)) with
          | true => simp [hgate]
          | false =>
              simp only [hgate, Bool.false_eq_true, if_false] at hne
              simp at hne
  · intro s hfind hok
    simp only [sharedAccessPost, hfind] at hok
    cases hexp : s.is_expired now with
    | true => simp [hexp] at hok
    | false =>
        simp only [hexp, Bool.false_eq_true, if_false] at hok
        cases hgate : (hasLinkPassword s &&
            !(some password == s.link_password)) with
        | true => simp [hgate] at hok
        | false =>
            refine ⟨?_, rfl, rfl, rfl, ?_⟩
            · simp [sharedAccessPost, hfind, hexp, hgate]
            · intro hpw
              rcases Bool.and_eq_false_iff.mp hgate with hcontra | hmatch
              · rw [hpw] at hcontra; simp at hcontra
              · simpa using hmatch

/-- Witness for C9 amended: a wrong password leaves the store
unchanged, and the successful access rewrites exactly the matched
share. -/
theorem shared_access_frame_effects_witness :
    (sharedAccessPost [pubShare] "tok123" "bad" 10).2 = [pubShare] ∧
    ((sharedAccessPost [pubShare] "tok123" "pw" 10).2 =
        replaceShare [pubShare] pubShare.id (record_access pubShare 10) ∧
      (record_access pubShare 10).access_count =
        pubShare.access_count + 1 ∧
      (record_access pubShare 10).last_accessed_at = some 10 ∧
      (record_access pubShare 10).last_accessed_by =
        pubShare.last_accessed_by ∧
      (hasLinkPassword pubShare = true →
        (some "pw" == pubShare.link_password) = true)) :=
  ⟨(shared_access_frame_effects [pubShare] "tok123" "bad" 10).1
      (by decide),
   (shared_access_frame_effects [pubShare] "tok123" "pw" 10).2
      pubShare (by decide) (by decide)⟩

/-- C10: an active, unexpired public-link share grants can_access to
every user, and the result does not depend on the user's identity nor
on the stored link_password — any rewrite of link_password still grants
any other user. -/
theorem public_link_can_access_uniform (s : DocumentShare) (u u2 : User)
    (pw : Option String) (now : Nat) (hst : s.share_type = "public_link")
    (hact : s.is_active = true) (hexp : s.is_expired now = false) :
    DocumentShare.can_access s u now = true ∧
    DocumentShare.can_access { s with link_password := pw } u2 now =
      true := by
  have hexp2 := hexp
  unfold DocumentShare.is_expired at hexp2
  constructor
  · unfold DocumentShare.can_access
    simp [hact, hexp, hst]
  · unfold DocumentShare.can_access DocumentShare.is_expired
    simp [hact, hst, hexp2]

/-- Witness for C10: the concrete public-link share admits both u1 and
uAdmin, with its password field rewritten or not. -/
theorem public_link_can_access_uniform_witness :
    DocumentShare.can_access pubShare u1 10 = true ∧
    DocumentShare.can_access { pubShare with link_password := none }
      uAdmin 10 = true :=
  public_link_can_access_uniform pubShare u1 uAdmin none 10 rfl rfl
    (by decide)

/-- C4 counterexample: applying the two-permission Viewer template to
users 1 and 2 with overwrite=false on an empty store yields
applied_count=2 and usage_count recomputed to 2 as claimed, but the
immediate identical re-application yields skipped_count=4 — one skip
per (user, permission) pair — and not the claimed skipped_count=2. -/
theorem template_reapply_claim_false :
    (apply_template_to_users ⟨[], []⟩ uAdmin viewerTemplate [1, 2]
      false 200).1 = .ok 2 0 ∧
    (apply_template_to_users ⟨[], []⟩ uAdmin viewerTemplate [1, 2]
      false 200).2.2.usage_count = 2 ∧
    (apply_template_to_users
      (apply_template_to_users ⟨[], []⟩ uAdmin viewerTemplate [1, 2]
        false 200).2.1
      uAdmin viewerTemplate [1, 2] false 204).1 ≠ .ok 0 2 := by
  decide

/-- C4 amended: in the same scenario the first application yields
applied_count=2, skipped_count=0 and usage_count recomputed to 2, and
the identical re-application with overwrite=false yields
applied_count=0 and skipped_count=4, because the skip counter is
incremented once per (user, permission) pair rather than per user. -/
theorem template_reapply_counts :
    (apply_template_to_users ⟨[], []⟩ uAdmin viewerTemplate [1, 2]
      false 200).1 = .ok 2 0 ∧
    (apply_template_to_users ⟨[], []⟩ uAdmin viewerTemplate [1, 2]
      false 200).2.2.usage_count = 2 ∧
    (apply_template_to_users
      (apply_template_to_users ⟨[], []⟩ uAdmin viewerTemplate [1, 2]
        false 200).2.1
      uAdmin viewerTemplate [1, 2] false 204).1 = .ok 0 4 := by
  decide

end Portal




